import Mathlib

/-!
Verification development for the opencode-claude-marketplace-bridge plugin
(src/index.js plus the data-layer contract of src/docs/plans/2026-02-08-native-plugin-marketplace.md).

The JavaScript source is shallowly embedded: JS strings are Lean `String`,
JS objects used as maps are association lists, `undefined`/`null` fields are
`Option`, and the synchronous CLI subprocess is modelled by passing its raw
spawn outcome as an explicit argument.
-/

namespace Bridge

/-! ## JavaScript string primitives -/

/-- Chars-level check that the first list is an initial segment of the second. -/
def charsStartsWith : List Char → List Char → Bool
  | [], _ => true
  | _ :: _, [] => false
  | a :: as, b :: bs => a == b && charsStartsWith as bs

/-- Chars-level substring search: does the second list contain the first
as a contiguous run?  Mirrors JavaScript `String.prototype.includes`. -/
def charsHasSub (needle : List Char) : List Char → Bool
  | [] => charsStartsWith needle []
  | c :: rest => charsStartsWith needle (c :: rest) || charsHasSub needle rest

/-- JS `hay.includes(needle)`. -/
def jsIncludes (hay needle : String) : Bool :=
  charsHasSub needle.data hay.data

/-- JS `s.toLowerCase()` (ASCII range, which covers every phrase the source
compares against). -/
def jsToLower (s : String) : String :=
  ⟨s.data.map Char.toLower⟩

/-- JS template interpolation of a possibly-undefined string: `undefined`
prints as the text "undefined". -/
def jsShowOpt : Option String → String
  | some s => s
  | none => "undefined"

/-! ## CLI Bridge (src/index.js lines 23-50) -/

/-- Structured result returned by `runClaude`. -/
structure CliResult where
  ok : Bool
  exitCode : Int
  stdout : String
  stderr : String
  command : String
deriving Repr, DecidableEq

/-- The raw outcome of `spawnSync("claude", args, options)`: an `error`
message when the spawn itself failed, otherwise an optional exit status and
the captured streams (each possibly null). -/
structure SpawnResult where
  error : Option String
  status : Option Int
  stdout : Option String
  stderr : Option String
deriving Repr, DecidableEq

/-- src/index.js lines 23-50: `runClaude(args)` never raises; a spawn error
becomes `ok:false, exitCode:-1` with the error message as stderr, and
otherwise `ok` is `result.status === 0`, `exitCode` is `result.status ?? -1`,
and the streams default to the empty string. -/
def runClaude (args : List String) (spawn : SpawnResult) : CliResult :=
  match spawn.error with
  | some msg =>
    { ok := false
      exitCode := -1
      stdout := ""
      stderr := msg
      command := "claude " ++ String.intercalate " " args }
  | none =>
    { ok := spawn.status == some 0
      exitCode := spawn.status.getD (-1)
      stdout := spawn.stdout.getD ""
      stderr := spawn.stderr.getD ""
      command := "claude " ++ String.intercalate " " args }

/-- src/index.js lines 164-174: case-insensitive scan of combined
stdout+stderr for the fixed set of "already current" phrases. -/
def outputSuggestsNoopUpdate (result : CliResult) : Bool :=
  let text := jsToLower (result.stdout ++ "\n" ++ result.stderr)
  jsIncludes text "up to date" ||
  jsIncludes text "already up-to-date" ||
  jsIncludes text "already up to date" ||
  jsIncludes text "already at the latest" ||
  jsIncludes text "no updates" ||
  jsIncludes text "no change"

/-! ## Registry snapshots -/

/-- One row of `installed_plugins.json`'s per-key array. -/
structure InstRow where
  scope : Option String
  projectPath : Option String
  version : Option String
  lastUpdated : Option String
deriving Repr, DecidableEq

/-- The `plugins` map of installed_plugins.json: key -> array of install
rows.  JS objects have unique keys; the association lists used in theorems
below respect that. -/
abbrev InstalledMap := List (String × List InstRow)

/-- JS `(m[key]?.length ?? 0)` — the installed-row count for a key, with an
absent key counting as zero rows. -/
def rowCount (m : InstalledMap) (key : String) : Nat :=
  ((m.lookup key).getD []).length

/-- src/index.js lines 128-132: `summarizePluginState`.  JS
`.filter(Boolean)` drops both undefined and empty-string versions. -/
def summarizePluginState (installed : InstalledMap) (key : String) : String :=
  let rows := (installed.lookup key).getD []
  let versions := (rows.filterMap InstRow.version).filter (fun v => v != "")
  toString rows.length ++ " row(s), versions=[" ++ String.intercalate ", " versions ++ "]"

/-- The `source` descriptor of a known-marketplaces entry. -/
structure MpSource where
  repo : Option String
  url : Option String
  source : Option String
deriving Repr, DecidableEq

/-- One entry of known_marketplaces.json. -/
structure MpEntry where
  source : Option MpSource
  lastUpdated : Option String
  autoUpdate : Option Bool
deriving Repr, DecidableEq

/-- known_marketplaces.json: name -> entry. -/
abbrev KnownMap := List (String × MpEntry)

/-- src/index.js lines 134-140: `summarizeMarketplaceState`. -/
def summarizeMarketplaceState (known : KnownMap) (key : String) : String :=
  match known.lookup key with
  | none => "missing"
  | some entry =>
    let updated := entry.lastUpdated.getD "unknown"
    let src := (((entry.source.bind MpSource.repo).orElse
        (fun _ => entry.source.bind MpSource.url)).orElse
        (fun _ => entry.source.bind MpSource.source)).getD "unknown"
    "present(lastUpdated=" ++ updated ++ ", source=" ++ src ++ ")"

/-- The merged enabledPlugins map: key -> enabled flag.  Absence of a key is
a distinct third state. -/
abbrev EnabledMap := List (String × Bool)

/-- src/index.js lines 795-800: `summarizeEnabledState`. -/
def summarizeEnabledState (map : EnabledMap) (pluginKey : String) : String :=
  match map.lookup pluginKey with
  | none => "missing"
  | some b => if b then "enabled" else "disabled"

/-- src/index.js lines 788-793: `verifyEnableDisableOutput` — the combined
lowercased output must contain the keyword and mention the plugin key. -/
def verifyEnableDisableOutput (cliResult : CliResult) (keyword pluginKey : String) : Bool :=
  let combined := jsToLower (cliResult.stdout ++ "\n" ++ cliResult.stderr)
  jsIncludes combined keyword && jsIncludes combined (jsToLower pluginKey)

/-! ## Verification blocks (one per mutating tool) -/

/-- The verification block each mutating tool passes to
`formatVerificationBlock` (src/index.js lines 52-67). -/
structure Verification where
  exitCode : Int
  verified : Bool
  before : String
  after : String
  reason : Option String
  warning : Option String
deriving Repr, DecidableEq

/-- The drift-warning pattern repeated verbatim in every mutating tool
(src/index.js lines 515, 566, 640, 834, 889, 960, 1010, 1047):
`const warning = cliResult.ok && !verified ? msg : null`. -/
def driftWarning (cliOk verified : Bool) (msg : String) : Option String :=
  if cliOk && !verified then some msg else none

def installDriftMsg : String :=
  "CLI reported success but installed_plugins.json did not show a new row. Possible Claude CLI schema/behavior change."

def uninstallDriftMsg : String :=
  "CLI reported success but installed_plugins.json did not show a row decrease. Possible Claude CLI schema/behavior change."

def updateDriftMsg : String :=
  "CLI reported success but no version/lastUpdated change detected and output didn\x27t indicate no-op. Possible CLI/schema drift."

def enableDriftMsg : String :=
  "Enable command succeeded but neither settings state nor CLI output provided unambiguous confirmation. This may indicate CLI/settings schema drift."

def disableDriftMsg : String :=
  "Disable command succeeded but neither settings state nor CLI output provided unambiguous confirmation. This may indicate CLI/settings schema drift."

def marketplaceAddDriftMsg : String :=
  "CLI reported success but no new marketplace key appeared in known_marketplaces.json. Possible CLI/schema drift."

def marketplaceUpdateDriftMsg : String :=
  "CLI reported success but marketplace state could not be confirmed from known_marketplaces.json."

def marketplaceRemoveDriftMsg : String :=
  "CLI reported success but marketplace key still exists. Removal semantics may have changed."

/-- src/index.js line 514: install is verified when the installed-row count
for the key strictly increases. -/
def plugin_install_verified (before after : InstalledMap) (pluginKey : String) : Bool :=
  decide (rowCount after pluginKey > rowCount before pluginKey)

/-- The verification block built by plugin_install (src/index.js lines 510-530). -/
def plugin_install_verification (before after : InstalledMap) (pluginKey : String)
    (cliResult : CliResult) : Verification :=
  let verified := decide (rowCount after pluginKey > rowCount before pluginKey)
  { exitCode := cliResult.exitCode
    verified := verified
    before := summarizePluginState before pluginKey
    after := summarizePluginState after pluginKey
    reason := some (if verified then "install row count increased" else "install row count did not increase")
    warning := driftWarning cliResult.ok verified installDriftMsg }

/-- src/index.js line 565: uninstall is verified when the installed-row
count for the key strictly decreases. -/
def plugin_uninstall_verified (before after : InstalledMap) (pluginKey : String) : Bool :=
  decide (rowCount after pluginKey < rowCount before pluginKey)

/-- The verification block built by plugin_uninstall (src/index.js lines 561-581). -/
def plugin_uninstall_verification (before after : InstalledMap) (pluginKey : String)
    (cliResult : CliResult) : Verification :=
  let verified := decide (rowCount after pluginKey < rowCount before pluginKey)
  { exitCode := cliResult.exitCode
    verified := verified
    before := summarizePluginState before pluginKey
    after := summarizePluginState after pluginKey
    reason := some (if verified then "install row count decreased" else "install row count did not decrease")
    warning := driftWarning cliResult.ok verified uninstallDriftMsg }

/-- The canonical (first) row's version for a key: JS
`(m[key] ?? [])[0]?.version` as used around src/index.js lines 610, 626. -/
def firstVersion (m : InstalledMap) (key : String) : Option String :=
  (((m.lookup key).getD []).head?).bind InstRow.version

/-- The canonical (first) row's lastUpdated timestamp for a key. -/
def firstLastUpdated (m : InstalledMap) (key : String) : Option String :=
  (((m.lookup key).getD []).head?).bind InstRow.lastUpdated

/-- src/index.js lines 626-630: update is verified when the canonical row's
version changed, or its lastUpdated changed, or the output reads as a no-op.
(plugin_update only reaches this code when the key has at least one
before-row, line 606.) -/
def plugin_update_verified (before after : InstalledMap) (pluginKey : String)
    (cliResult : CliResult) : Bool :=
  (firstVersion before pluginKey != firstVersion after pluginKey) ||
  (firstLastUpdated before pluginKey != firstLastUpdated after pluginKey) ||
  outputSuggestsNoopUpdate cliResult

/-- The verification block built by plugin_update (src/index.js lines 620-648). -/
def plugin_update_verification (before after : InstalledMap) (pluginKey : String)
    (cliResult : CliResult) : Verification :=
  let versionChanged := firstVersion before pluginKey != firstVersion after pluginKey
  let updatedChanged := firstLastUpdated before pluginKey != firstLastUpdated after pluginKey
  let outputNoop := outputSuggestsNoopUpdate cliResult
  let verified := versionChanged || updatedChanged || outputNoop
  { exitCode := cliResult.exitCode
    verified := verified
    before := summarizePluginState before pluginKey
    after := summarizePluginState after pluginKey
    reason := some (if versionChanged then
        "version changed: " ++ jsShowOpt (firstVersion before pluginKey) ++ " -> " ++ jsShowOpt (firstVersion after pluginKey)
      else if updatedChanged then
        "lastUpdated changed: " ++ jsShowOpt (firstLastUpdated before pluginKey) ++ " -> " ++ jsShowOpt (firstLastUpdated after pluginKey)
      else if outputNoop then
        "CLI output indicates already at latest version"
      else
        "could not confirm update from state or CLI output")
    warning := driftWarning cliResult.ok verified updateDriftMsg }

/-- src/index.js lines 831-833: enable is verified when the enabled-state
map transitions false -> true for the key, or the CLI output confirms an
enable action mentioning the key. -/
def plugin_enable_verified (beforeEnabled afterEnabled : EnabledMap) (pluginKey : String)
    (cliResult : CliResult) : Bool :=
  ((beforeEnabled.lookup pluginKey == some false) && (afterEnabled.lookup pluginKey == some true)) ||
  verifyEnableDisableOutput cliResult "enable" pluginKey

/-- The verification block built by plugin_enable (src/index.js lines 826-853). -/
def plugin_enable_verification (beforeInstalled afterInstalled : InstalledMap)
    (beforeEnabled afterEnabled : EnabledMap) (pluginKey : String)
    (cliResult : CliResult) : Verification :=
  let outputVerified := verifyEnableDisableOutput cliResult "enable" pluginKey
  let stateVerified := (beforeEnabled.lookup pluginKey == some false) && (afterEnabled.lookup pluginKey == some true)
  let verified := stateVerified || outputVerified
  { exitCode := cliResult.exitCode
    verified := verified
    before := summarizePluginState beforeInstalled pluginKey ++ "; enabled_state=" ++ summarizeEnabledState beforeEnabled pluginKey
    after := summarizePluginState afterInstalled pluginKey ++ "; enabled_state=" ++ summarizeEnabledState afterEnabled pluginKey
    reason := some (if stateVerified then
        "enabledPlugins state transitioned false->true"
      else if outputVerified then
        "CLI output confirms enable operation"
      else
        "could not confirm enable transition from settings or output")
    warning := driftWarning cliResult.ok verified enableDriftMsg }

/-- src/index.js lines 886-888: disable is verified when the enabled-state
map transitions true -> false for the key, or the CLI output confirms a
disable action mentioning the key. -/
def plugin_disable_verified (beforeEnabled afterEnabled : EnabledMap) (pluginKey : String)
    (cliResult : CliResult) : Bool :=
  ((beforeEnabled.lookup pluginKey == some true) && (afterEnabled.lookup pluginKey == some false)) ||
  verifyEnableDisableOutput cliResult "disable" pluginKey

/-- The verification block built by plugin_disable (src/index.js lines 881-908). -/
def plugin_disable_verification (beforeInstalled afterInstalled : InstalledMap)
    (beforeEnabled afterEnabled : EnabledMap) (pluginKey : String)
    (cliResult : CliResult) : Verification :=
  let outputVerified := verifyEnableDisableOutput cliResult "disable" pluginKey
  let stateVerified := (beforeEnabled.lookup pluginKey == some true) && (afterEnabled.lookup pluginKey == some false)
  let verified := stateVerified || outputVerified
  { exitCode := cliResult.exitCode
    verified := verified
    before := summarizePluginState beforeInstalled pluginKey ++ "; enabled_state=" ++ summarizeEnabledState beforeEnabled pluginKey
    after := summarizePluginState afterInstalled pluginKey ++ "; enabled_state=" ++ summarizeEnabledState afterEnabled pluginKey
    reason := some (if stateVerified then
        "enabledPlugins state transitioned true->false"
      else if outputVerified then
        "CLI output confirms disable operation"
      else
        "could not confirm disable transition from settings or output")
    warning := driftWarning cliResult.ok verified disableDriftMsg }

/-- src/index.js lines 956-959: marketplace add is verified when a key is
present after but absent before. -/
def marketplace_add_verified (before after : KnownMap) : Bool :=
  decide (0 < ((after.map Prod.fst).filter (fun k => !((before.map Prod.fst).contains k))).length)

/-- The verification block built by marketplace_add (src/index.js lines 952-976). -/
def marketplace_add_verification (before after : KnownMap) (cliResult : CliResult) : Verification :=
  let beforeKeys := before.map Prod.fst
  let afterKeys := after.map Prod.fst
  let added := afterKeys.filter (fun k => !(beforeKeys.contains k))
  let verified := decide (0 < added.length)
  { exitCode := cliResult.exitCode
    verified := verified
    before := toString beforeKeys.length ++ " marketplace key(s)"
    after := toString afterKeys.length ++ " marketplace key(s)" ++
      (if added.isEmpty then "" else ", added=[" ++ String.intercalate ", " added ++ "]")
    reason := some (if verified then "new marketplace key detected" else "no new key detected")
    warning := driftWarning cliResult.ok verified marketplaceAddDriftMsg }

/-- src/index.js line 995: the targets of a marketplace update — the single
named marketplace when one is given (JS truthiness: an empty-string name
counts as absent), otherwise every key of the after snapshot. -/
def mpUpdateTargets (after : KnownMap) (marketplaceArg : Option String) : List String :=
  match marketplaceArg with
  | some m => if m == "" then after.map Prod.fst else [m]
  | none => after.map Prod.fst

/-- src/index.js lines 998-1000: targets that still exist in the after
snapshot (`if (!after[target]) continue`). -/
def mpExistingTargets (after : KnownMap) (marketplaceArg : Option String) : List String :=
  (mpUpdateTargets after marketplaceArg).filter (fun t => (after.lookup t).isSome)

/-- src/index.js lines 1001-1005: how many existing targets changed their
summarized state string. -/
def mpChangedCount (before after : KnownMap) (marketplaceArg : Option String) : Nat :=
  ((mpExistingTargets after marketplaceArg).filter
    (fun t => summarizeMarketplaceState before t != summarizeMarketplaceState after t)).length

/-- src/index.js line 1009:
`verified = existingTargets > 0 && (changed > 0 || outputNoop)`. -/
def marketplace_update_verified (before after : KnownMap) (marketplaceArg : Option String)
    (cliResult : CliResult) : Bool :=
  decide (0 < (mpExistingTargets after marketplaceArg).length) &&
    (decide (0 < mpChangedCount before after marketplaceArg) || outputSuggestsNoopUpdate cliResult)

/-- The verification block built by marketplace_update (src/index.js lines 989-1029). -/
def marketplace_update_verification (before after : KnownMap) (marketplaceArg : Option String)
    (cliResult : CliResult) : Verification :=
  let changed := mpChangedCount before after marketplaceArg
  let outputNoop := outputSuggestsNoopUpdate cliResult
  let verified := decide (0 < (mpExistingTargets after marketplaceArg).length) &&
    (decide (0 < changed) || outputNoop)
  { exitCode := cliResult.exitCode
    verified := verified
    before := toString (before.map Prod.fst).length ++ " marketplace key(s)"
    after := toString (after.map Prod.fst).length ++ " marketplace key(s), changed=" ++ toString changed
    reason := some (if decide (0 < changed) then
        "one or more marketplace state entries changed"
      else if outputNoop then
        "CLI output indicates no-op update (already up-to-date)"
      else
        "could not confirm update/no-op from state or CLI output")
    warning := driftWarning cliResult.ok verified marketplaceUpdateDriftMsg }

/-- src/index.js line 1046: remove is verified when the key was (truthily)
present before and is absent after. -/
def marketplace_remove_verified (before after : KnownMap) (name : String) : Bool :=
  (before.lookup name).isSome && (after.lookup name).isNone

/-- The verification block built by marketplace_remove (src/index.js lines 1042-1062). -/
def marketplace_remove_verification (before after : KnownMap) (name : String)
    (cliResult : CliResult) : Verification :=
  let verified := (before.lookup name).isSome && (after.lookup name).isNone
  { exitCode := cliResult.exitCode
    verified := verified
    before := summarizeMarketplaceState before name
    after := summarizeMarketplaceState after name
    reason := some (if verified then "marketplace key removed" else "marketplace key still present or missing before remove")
    warning := driftWarning cliResult.ok verified marketplaceRemoveDriftMsg }

/-! ## Plugin identifier resolution (src/index.js lines 74-89 and 428-467) -/

/-- One row of the merged available/installed plugin view, as consumed by
`findMatchingPlugins`. -/
structure PluginRow where
  name : String
  marketplace : String
  key : String
deriving Repr, DecidableEq

/-- Modelled from the spec: `normalizePluginIdentifier` is defined in
lib/data.js, which is absent from the sources (only its import in
src/index.js line 13 remains).  Spec section 4.2 resolves the supplied
string directly — "a user-supplied string that may be `name`,
`name@marketplace`, or `name` plus a separate marketplace hint" — with the
marketplace hint applied afterwards as a filter, so normalization is
modelled as the identity on the identifier; `findMatchingPlugins` treats an
empty normalized identifier as matching nothing (`if (!normalized) return []`). -/
def normalizePluginIdentifier (pluginName : String) (_marketplace : Option String) : String :=
  pluginName

/-- src/index.js lines 74-89: an identifier containing `@` matches composite
keys by exact (case-sensitive) string equality; otherwise names are matched
case-insensitively, and a (truthy) marketplace hint filters the name matches
case-insensitively. -/
def findMatchingPlugins (plugins : List PluginRow) (pluginName : String)
    (marketplace : Option String) : List PluginRow :=
  let normalized := normalizePluginIdentifier pluginName marketplace
  if normalized == "" then []
  else if jsIncludes normalized "@" then
    plugins.filter (fun p => p.key == normalized)
  else
    let byName := plugins.filter (fun p => jsToLower p.name == jsToLower normalized)
    match marketplace with
    | some m => if m == "" then byName else byName.filter (fun p => jsToLower p.marketplace == jsToLower m)
    | none => byName

/-- The three outcomes of `resolvePluginTarget` (src/index.js lines 448-466):
`{ok:false, reason}`, `{ok:false, reason, candidates}`, and `{ok:true, target}`. -/
inductive ResolveOutcome where
  | notFound (reason : String)
  | ambiguous (reason : String) (candidates : List String)
  | resolved (target : PluginRow)
deriving Repr, DecidableEq

/-- src/index.js lines 428-467: `resolvePluginTarget`, abstracted over the
merged available+installed plugin list it builds at lines 429-445. -/
def resolvePluginTarget (plugins : List PluginRow) (plugin : String)
    (marketplace : Option String) : ResolveOutcome :=
  let found := findMatchingPlugins plugins plugin marketplace
  match found with
  | [] => .notFound ("No plugin matched `" ++ plugin ++ "`")
  | [t] => .resolved t
  | _ :: _ :: _ =>
    .ambiguous "Multiple plugins matched; use plugin@marketplace" (found.map PluginRow.key)

/-! ## CLI invocations of the read-only tools

Each function below records, in order, the argument lists with which the
tool's `execute` body invokes `runClaude`, as a function of whether the
plugin-system availability guard passes.  The bodies of plugin_search
(src/index.js lines 185-249), plugin_info (lines 258-325) and plugin_list
(lines 335-377) contain no call to `runClaude` or `isClaudeAvailable` on any
path; plugin_status (lines 383-425) calls `isClaudeAvailable()` at line 388
after its availability guard, and `isClaudeAvailable` (lines 69-72) invokes
`runClaude(["--version"])`. -/

def plugin_search_cli_calls (_systemAvailable : Bool) : List (List String) := []

def plugin_info_cli_calls (_systemAvailable : Bool) : List (List String) := []

def plugin_list_cli_calls (_systemAvailable : Bool) : List (List String) := []

def plugin_status_cli_calls (systemAvailable : Bool) : List (List String) :=
  if systemAvailable then [["--version"]] else []

/-! ## Registry Reader (modelled from the spec)

lib/data.js is absent from the sources; the accessors below are modelled
from the implementation plan shipped with the repository
(src/docs/plans/2026-02-08-native-plugin-marketplace.md, Task 1) and spec
section 4.1: every read returns a safe empty default on a missing,
unreadable or malformed JSON file. -/

/-- A JSON value. -/
inductive JVal where
  | null
  | bool (b : Bool)
  | num (n : Int)
  | str (s : String)
  | arr (items : List JVal)
  | obj (fields : List (String × JVal))

/-- The possible outcomes of reading a registry file from disk. -/
inductive FileRead where
  | missing
  | unreadable
  | malformed
  | content (j : JVal)

/-- Modelled from the spec: `readJSON` (plan Task 1) wraps
`readFile` + `JSON.parse` in try/catch and returns null on a missing,
unreadable or unparseable file. -/
def readJSON : FileRead → Option JVal
  | .content j => some j
  | _ => none

/-- JS property access `v?.field` on a decoded JSON value. -/
def JVal.getField : JVal → String → Option JVal
  | .obj fields, k => fields.lookup k
  | _, _ => none

/-- JS truthiness of a decoded JSON value. -/
def JVal.truthy : JVal → Bool
  | .null => false
  | .bool b => b
  | .num n => n != 0
  | .str s => s != ""
  | .arr _ => true
  | .obj _ => true

/-- JS `Object.keys` on a decoded JSON value. -/
def JVal.objKeys : JVal → List String
  | .obj fields => fields.map Prod.fst
  | _ => []

/-- Modelled from the spec: `getKnownMarketplaces` returns
`readJSON(known_marketplaces.json) ?? {}`. -/
def getKnownMarketplaces (file : FileRead) : JVal :=
  (readJSON file).getD (.obj [])

/-- Modelled from the spec: `getInstalledPlugins` returns
`data?.plugins ?? {}` for the decoded installed_plugins.json. -/
def getInstalledPlugins (file : FileRead) : JVal :=
  ((readJSON file).bind (fun d => d.getField "plugins")).getD (.obj [])

/-- Modelled from the spec: `getConfig` returns `readJSON(config.json) ?? {}`. -/
def getConfig (file : FileRead) : JVal :=
  (readJSON file).getD (.obj [])

/-- Modelled from the spec: `getInstallCounts` returns the empty map unless
the decoded install-counts-cache.json has a truthy `counts` array, in which
case it maps each entry's `plugin` key to its `unique_installs` value. -/
def getInstallCounts (file : FileRead) : List (String × JVal) :=
  match (readJSON file).bind (fun d => d.getField "counts") with
  | some (.arr items) =>
    items.filterMap (fun item =>
      match item.getField "plugin" with
      | some (.str p) => some (p, (item.getField "unique_installs").getD .null)
      | _ => none)
  | _ => []

/-- Modelled from the spec: `getAllMarketplaceCatalogs` reads the catalog
file of every known marketplace and silently skips any whose
marketplace.json is missing or fails to parse (`if (catalog) results.push`). -/
def getAllMarketplaceCatalogs (knownFile : FileRead)
    (catalogFiles : String → FileRead) : List (String × JVal) :=
  (getKnownMarketplaces knownFile).objKeys.filterMap (fun name =>
    match readJSON (catalogFiles name) with
    | some catalog => if catalog.truthy then some (name, catalog) else none
    | none => none)

/-! ## Concrete sample data used in witnesses and counterexamples -/

def sampleRow : InstRow :=
  { scope := some "user", projectPath := none, version := some "1.0.0",
    lastUpdated := some "2026-01-01T00:00:00Z" }

def sampleMp : MpEntry :=
  { source := some { repo := some "owner/repo", url := none, source := some "github" },
    lastUpdated := some "2026-01-01T00:00:00Z", autoUpdate := some true }

def okCli : CliResult :=
  { ok := true, exitCode := 0, stdout := "", stderr := "",
    command := "claude plugin install alpha@m1" }

def failCli : CliResult :=
  { ok := false, exitCode := 1, stdout := "", stderr := "network error",
    command := "claude plugin install alpha@m1" }

def noopCli : CliResult :=
  { ok := true, exitCode := 0, stdout := "Plugin is already up to date.", stderr := "",
    command := "claude plugin update alpha@m1 --scope user" }

def rowA : PluginRow := { name := "alpha", marketplace := "m1", key := "alpha@m1" }

def rowB : PluginRow := { name := "alpha", marketplace := "m2", key := "alpha@m2" }

def rowCase : PluginRow := { name := "Foo", marketplace := "bar", key := "Foo@bar" }

/-! ## Helper lemmas -/

/-- The drift-warning pattern is non-null exactly when the CLI reported
success but verification failed. -/
theorem driftWarning_ne_none_iff (cliOk verified : Bool) (msg : String) :
    driftWarning cliOk verified msg ≠ none ↔ (cliOk = true ∧ verified = false) := by
  cases cliOk <;> cases verified <;> simp [driftWarning]

/-- A string containing "@" is not empty (stated on the Bool equality used
by `findMatchingPlugins`). -/
theorem beq_empty_eq_false_of_includes_at {s : String} (h : jsIncludes s "@" = true) :
    (s == "") = false := by
  by_cases hs : s = ""
  · subst hs
    exact absurd h (by decide)
  · cases hx : (s == "") with
    | true => exact absurd (eq_of_beq hx) hs
    | false => rfl

/-- When the normalized identifier contains "@", `findMatchingPlugins`
filters by exact composite-key equality. -/
theorem findMatchingPlugins_composite (plugins : List PluginRow) (ident : String)
    (hint : Option String)
    (h : jsIncludes (normalizePluginIdentifier ident hint) "@" = true) :
    findMatchingPlugins plugins ident hint =
      plugins.filter (fun p => p.key == normalizePluginIdentifier ident hint) := by
  have hne := beq_empty_eq_false_of_includes_at h
  simp [findMatchingPlugins, hne, h]

/-- A read that is not well-formed JSON content decodes to null. -/
theorem readJSON_eq_none {f : FileRead} (h : ∀ j, f ≠ FileRead.content j) :
    readJSON f = none := by
  cases f with
  | content j => exact absurd rfl (h j)
  | missing => rfl
  | unreadable => rfl
  | malformed => rfl

/-! ## Claim theorems -/

/-- C1 counterexample: the claim "if `cliResult.ok === false` then
`verified` is false" fails on plugin_install — with a failed CLI call and a
snapshot pair whose row count for the key nevertheless increased (0 -> 1),
the verification block reports `verified = true`. -/
theorem install_verified_true_despite_cli_failure :
    failCli.ok = false ∧
    (plugin_install_verification [] [("alpha@m1", [sampleRow])] "alpha@m1" failCli).verified = true :=
  ⟨rfl, rfl⟩

/-- C1 (amended): for every mutating tool, the `verified` field of the
verification block is computed from the before/after snapshots and the CLI
output text alone, independently of `cliResult.ok` — flipping `ok` never
changes `verified`, so a failed CLI call does not force `verified = false`. -/
theorem verified_field_independent_of_cli_ok
    (bi ai : InstalledMap) (k : String) (be ae : EnabledMap)
    (bk ak : KnownMap) (nm : String) (mArg : Option String)
    (r : CliResult) (b : Bool) :
    ((plugin_install_verification bi ai k { r with ok := b }).verified =
      (plugin_install_verification bi ai k r).verified) ∧
    ((plugin_uninstall_verification bi ai k { r with ok := b }).verified =
      (plugin_uninstall_verification bi ai k r).verified) ∧
    ((plugin_update_verification bi ai k { r with ok := b }).verified =
      (plugin_update_verification bi ai k r).verified) ∧
    ((plugin_enable_verification bi ai be ae k { r with ok := b }).verified =
      (plugin_enable_verification bi ai be ae k r).verified) ∧
    ((plugin_disable_verification bi ai be ae k { r with ok := b }).verified =
      (plugin_disable_verification bi ai be ae k r).verified) ∧
    ((marketplace_add_verification bk ak { r with ok := b }).verified =
      (marketplace_add_verification bk ak r).verified) ∧
    ((marketplace_update_verification bk ak mArg { r with ok := b }).verified =
      (marketplace_update_verification bk ak mArg r).verified) ∧
    ((marketplace_remove_verification bk ak nm { r with ok := b }).verified =
      (marketplace_remove_verification bk ak nm r).verified) :=
  ⟨rfl, rfl, rfl, rfl, rfl, rfl, rfl, rfl⟩

/-- C2: plugin_install is verified exactly when the installed-row count for
the key strictly increases (absent key = 0 rows), plugin_uninstall exactly
when it strictly decreases; concretely, before-count 0 / after-count 1
verifies an install, and before-count 1 / after-count 1 with `ok = true`
yields `verified = false` together with a drift warning. -/
theorem install_uninstall_verified_iff_rowcount :
    (∀ (before after : InstalledMap) (k : String) (r : CliResult),
      ((plugin_install_verification before after k r).verified = true ↔
        rowCount before k < rowCount after k)) ∧
    (∀ (before after : InstalledMap) (k : String) (r : CliResult),
      ((plugin_uninstall_verification before after k r).verified = true ↔
        rowCount after k < rowCount before k)) ∧
    ((plugin_install_verification [] [("alpha@m1", [sampleRow])] "alpha@m1" okCli).verified = true) ∧
    ((plugin_install_verification [("alpha@m1", [sampleRow])] [("alpha@m1", [sampleRow])] "alpha@m1" okCli).verified = false ∧
      (plugin_install_verification [("alpha@m1", [sampleRow])] [("alpha@m1", [sampleRow])] "alpha@m1" okCli).warning ≠ none) := by
  refine ⟨?_, ?_, rfl, rfl, by decide⟩
  · intro before after k r
    show decide (rowCount after k > rowCount before k) = true ↔ _
    simp
  · intro before after k r
    show decide (rowCount after k < rowCount before k) = true ↔ _
    simp

/-- C3: for every mutating tool, the verification block carries a non-null
drift warning exactly when the CLI reported success (`ok = true`) while
state verification failed (`verified = false`). -/
theorem drift_warning_iff_ok_and_unverified
    (bi ai : InstalledMap) (k : String) (be ae : EnabledMap)
    (bk ak : KnownMap) (nm : String) (mArg : Option String) (r : CliResult) :
    ((plugin_install_verification bi ai k r).warning ≠ none ↔
      (r.ok = true ∧ (plugin_install_verification bi ai k r).verified = false)) ∧
    ((plugin_uninstall_verification bi ai k r).warning ≠ none ↔
      (r.ok = true ∧ (plugin_uninstall_verification bi ai k r).verified = false)) ∧
    ((plugin_update_verification bi ai k r).warning ≠ none ↔
      (r.ok = true ∧ (plugin_update_verification bi ai k r).verified = false)) ∧
    ((plugin_enable_verification bi ai be ae k r).warning ≠ none ↔
      (r.ok = true ∧ (plugin_enable_verification bi ai be ae k r).verified = false)) ∧
    ((plugin_disable_verification bi ai be ae k r).warning ≠ none ↔
      (r.ok = true ∧ (plugin_disable_verification bi ai be ae k r).verified = false)) ∧
    ((marketplace_add_verification bk ak r).warning ≠ none ↔
      (r.ok = true ∧ (marketplace_add_verification bk ak r).verified = false)) ∧
    ((marketplace_update_verification bk ak mArg r).warning ≠ none ↔
      (r.ok = true ∧ (marketplace_update_verification bk ak mArg r).verified = false)) ∧
    ((marketplace_remove_verification bk ak nm r).warning ≠ none ↔
      (r.ok = true ∧ (marketplace_remove_verification bk ak nm r).verified = false)) :=
  ⟨driftWarning_ne_none_iff r.ok ((plugin_install_verification bi ai k r).verified) installDriftMsg,
   driftWarning_ne_none_iff r.ok ((plugin_uninstall_verification bi ai k r).verified) uninstallDriftMsg,
   driftWarning_ne_none_iff r.ok ((plugin_update_verification bi ai k r).verified) updateDriftMsg,
   driftWarning_ne_none_iff r.ok ((plugin_enable_verification bi ai be ae k r).verified) enableDriftMsg,
   driftWarning_ne_none_iff r.ok ((plugin_disable_verification bi ai be ae k r).verified) disableDriftMsg,
   driftWarning_ne_none_iff r.ok ((marketplace_add_verification bk ak r).verified) marketplaceAddDriftMsg,
   driftWarning_ne_none_iff r.ok ((marketplace_update_verification bk ak mArg r).verified) marketplaceUpdateDriftMsg,
   driftWarning_ne_none_iff r.ok ((marketplace_remove_verification bk ak nm r).verified) marketplaceRemoveDriftMsg⟩

/-- C4: plugin_update is verified exactly when the canonical (first) row's
version changed, or its lastUpdated timestamp changed, or the lowercased
combined stdout+stderr contains one of the six fixed no-op phrases; with
identical version and timestamp and stdout containing "already up to date",
the result is `verified = true` with the no-op reason. -/
theorem update_verified_characterization :
    (∀ (before after : InstalledMap) (k : String) (r : CliResult),
      ((plugin_update_verification before after k r).verified = true ↔
        (firstVersion before k ≠ firstVersion after k ∨
         firstLastUpdated before k ≠ firstLastUpdated after k ∨
         outputSuggestsNoopUpdate r = true))) ∧
    (∀ r : CliResult,
      outputSuggestsNoopUpdate r =
        (["up to date", "already up-to-date", "already up to date",
          "already at the latest", "no updates", "no change"].any
          (fun phrase => jsIncludes (jsToLower (r.stdout ++ "\n" ++ r.stderr)) phrase))) ∧
    ((plugin_update_verification [("alpha@m1", [sampleRow])] [("alpha@m1", [sampleRow])] "alpha@m1" noopCli).verified = true ∧
     (plugin_update_verification [("alpha@m1", [sampleRow])] [("alpha@m1", [sampleRow])] "alpha@m1" noopCli).reason =
       some "CLI output indicates already at latest version") := by
  refine ⟨?_, ?_, by decide, by decide⟩
  · intro before after k r
    show (((firstVersion before k != firstVersion after k) ||
        (firstLastUpdated before k != firstLastUpdated after k)) ||
          outputSuggestsNoopUpdate r) = true ↔ _
    simp [bne_iff_ne, or_assoc]
  · intro r
    simp only [outputSuggestsNoopUpdate, List.any_cons, List.any_nil, Bool.or_false,
      Bool.or_assoc]

/-- C5: marketplace_update is verified exactly when at least one target
(the named marketplace, or all after-snapshot keys when none is named)
still exists in the after snapshot and either some existing target's
summarized state string changed or the no-op phrase detector fired; with
zero existing targets it is never verified, even on no-op output. -/
theorem marketplace_update_verified_characterization :
    (∀ (before after : KnownMap) (mArg : Option String) (r : CliResult),
      ((marketplace_update_verification before after mArg r).verified = true ↔
        (mpExistingTargets after mArg ≠ [] ∧
          (0 < mpChangedCount before after mArg ∨ outputSuggestsNoopUpdate r = true)))) ∧
    ((marketplace_update_verification [("m1", sampleMp)] [] none noopCli).verified = false) ∧
    ((marketplace_update_verification [("m1", sampleMp)] [] (some "m1") noopCli).verified = false) := by
  refine ⟨?_, by decide, by decide⟩
  intro before after mArg r
  show (decide (0 < (mpExistingTargets after mArg).length) &&
      (decide (0 < mpChangedCount before after mArg) || outputSuggestsNoopUpdate r)) = true ↔ _
  simp [List.length_pos]

/-- C6: when the identifier contains "@", `findMatchingPlugins` selects
exactly the rows whose composite key equals it; and `resolvePluginTarget`
is a trichotomy — no match gives an explicit not-found result, a unique
match resolves to that plugin, and several matches give an ambiguous result
carrying every candidate composite key. -/
theorem resolve_exact_key_and_trichotomy :
    (∀ (plugins : List PluginRow) (ident : String) (hint : Option String),
      jsIncludes (normalizePluginIdentifier ident hint) "@" = true →
      findMatchingPlugins plugins ident hint =
        plugins.filter (fun p => p.key == normalizePluginIdentifier ident hint)) ∧
    (∀ (plugins : List PluginRow) (ident : String) (hint : Option String),
      (findMatchingPlugins plugins ident hint = [] →
        resolvePluginTarget plugins ident hint =
          .notFound ("No plugin matched `" ++ ident ++ "`")) ∧
      (∀ t : PluginRow, findMatchingPlugins plugins ident hint = [t] →
        resolvePluginTarget plugins ident hint = .resolved t) ∧
      (1 < (findMatchingPlugins plugins ident hint).length →
        resolvePluginTarget plugins ident hint =
          .ambiguous "Multiple plugins matched; use plugin@marketplace"
            ((findMatchingPlugins plugins ident hint).map PluginRow.key))) := by
  refine ⟨findMatchingPlugins_composite, ?_⟩
  intro plugins ident hint
  refine ⟨?_, ?_, ?_⟩
  · intro h
    simp only [resolvePluginTarget]
    rw [h]
  · intro t h
    simp only [resolvePluginTarget]
    rw [h]
  · intro h
    simp only [resolvePluginTarget]
    rcases hm : findMatchingPlugins plugins ident hint with _ | ⟨a, _ | ⟨b, rest⟩⟩
    · rw [hm] at h; simp at h
    · rw [hm] at h; simp at h
    · rfl

/-- C6 witness: with two same-named plugins in different marketplaces, an
"@"-qualified identifier filters by exact key, and a bare name resolves
ambiguously with both candidate keys listed. -/
theorem resolve_exact_key_and_trichotomy_witness :
    findMatchingPlugins [rowA, rowB] "alpha@m1" none =
      [rowA, rowB].filter (fun p => p.key == normalizePluginIdentifier "alpha@m1" none) ∧
    resolvePluginTarget [rowA, rowB] "alpha" none =
      .ambiguous "Multiple plugins matched; use plugin@marketplace" ["alpha@m1", "alpha@m2"] := by
  constructor
  · exact resolve_exact_key_and_trichotomy.1 [rowA, rowB] "alpha@m1" none (by decide)
  · have h := (resolve_exact_key_and_trichotomy.2 [rowA, rowB] "alpha" none).2.2 (by decide)
    rw [h]
    decide

/-- C7: `runClaude` always returns a structured result whose `ok` field is
exactly "exit code equals zero", and a spawn failure yields
`ok:false, exitCode:-1`, empty stdout, and the spawn error message as
stderr, with the command string rebuilt from the argument tokens. -/
theorem runClaude_ok_iff_exit_zero_and_spawn_failure_shape
    (args : List String) (spawn : SpawnResult) (msg : String) :
    ((runClaude args spawn).ok = decide ((runClaude args spawn).exitCode = 0)) ∧
    (runClaude args { spawn with error := some msg } =
      { ok := false, exitCode := -1, stdout := "", stderr := msg,
        command := "claude " ++ String.intercalate " " args }) := by
  constructor
  · rcases spawn with ⟨err, status, so, se⟩
    cases err with
    | some m => rfl
    | none =>
      cases status with
      | none => rfl
      | some n =>
        show (some n == some 0) = decide (n = 0)
        by_cases h : n = 0 <;> simp [h]
  · rfl

/-- C8 counterexample: plugin_status does invoke the CLI bridge — when the
plugin system is available its execute body calls `isClaudeAvailable`,
which runs `runClaude(["--version"])`, so its CLI-call trace is non-empty. -/
theorem plugin_status_invokes_runClaude :
    plugin_status_cli_calls true = [["--version"]] ∧
    plugin_status_cli_calls true ≠ ([] : List (List String)) :=
  ⟨rfl, by decide⟩

/-- C8 (amended): plugin_search, plugin_info and plugin_list never invoke
the CLI bridge on any execution path; plugin_status invokes it exactly
once — the read-only `--version` availability probe — when the plugin
system is available, and not at all otherwise. -/
theorem read_tools_cli_call_traces (systemAvailable : Bool) :
    plugin_search_cli_calls systemAvailable = [] ∧
    plugin_info_cli_calls systemAvailable = [] ∧
    plugin_list_cli_calls systemAvailable = [] ∧
    plugin_status_cli_calls systemAvailable =
      (if systemAvailable then [["--version"]] else []) :=
  ⟨rfl, rfl, rfl, rfl⟩

/-- C9: every Registry Reader accessor returns its documented empty default
when its backing file is absent, unreadable or malformed — the marketplace
registry, installed map and config default to the empty object, the
install-count map to the empty map, and marketplaces whose catalog file
fails to read are silently skipped (all bad catalogs give the empty list). -/
theorem registry_readers_default_on_bad_files
    (f : FileRead) (h : ∀ j, f ≠ FileRead.content j)
    (knownFile : FileRead) (catalogFiles : String → FileRead)
    (hc : ∀ name j, catalogFiles name ≠ FileRead.content j) :
    getKnownMarketplaces f = JVal.obj [] ∧
    getInstalledPlugins f = JVal.obj [] ∧
    getConfig f = JVal.obj [] ∧
    getInstallCounts f = [] ∧
    getAllMarketplaceCatalogs knownFile catalogFiles = [] := by
  have hn := readJSON_eq_none h
  refine ⟨?_, ?_, ?_, ?_, ?_⟩
  · simp [getKnownMarketplaces, hn]
  · simp [getInstalledPlugins, hn]
  · simp [getConfig, hn]
  · simp [getInstallCounts, hn]
  · simp only [getAllMarketplaceCatalogs, List.filterMap_eq_nil_iff]
    intro name _
    rw [readJSON_eq_none (hc name)]

/-- C9 witness: a malformed registry file and unreadable catalog files give
the empty defaults. -/
theorem registry_readers_default_on_bad_files_witness :
    getKnownMarketplaces .malformed = JVal.obj [] ∧
    getInstalledPlugins .malformed = JVal.obj [] ∧
    getConfig .malformed = JVal.obj [] ∧
    getInstallCounts .malformed = [] ∧
    getAllMarketplaceCatalogs .missing (fun _ => .unreadable) = [] :=
  registry_readers_default_on_bad_files .malformed (fun _ h => FileRead.noConfusion h)
    .missing (fun _ => .unreadable) (fun _ _ h => FileRead.noConfusion h)

/-- C10: an "@"-qualified identifier is matched against composite keys by
case-sensitive equality, while a bare name is matched against plugin names
case-insensitively and a (truthy) marketplace hint is matched against the
rows' marketplaces case-insensitively; hence "foo@bar" fails to match the
key "Foo@bar" even though the bare name "foo" matches the plugin named
"Foo", with or without a hint. -/
theorem key_match_case_sensitivity :
    (∀ (plugins : List PluginRow) (ident : String) (hint : Option String) (p : PluginRow),
      jsIncludes (normalizePluginIdentifier ident hint) "@" = true →
      p ∈ findMatchingPlugins plugins ident hint →
      p.key = normalizePluginIdentifier ident hint) ∧
    (∀ (plugins : List PluginRow) (ident : String) (p : PluginRow),
      jsIncludes (normalizePluginIdentifier ident none) "@" = false →
      normalizePluginIdentifier ident none ≠ "" →
      (p ∈ findMatchingPlugins plugins ident none ↔
        (p ∈ plugins ∧ jsToLower p.name = jsToLower (normalizePluginIdentifier ident none)))) ∧
    (∀ (plugins : List PluginRow) (ident m : String) (p : PluginRow),
      jsIncludes (normalizePluginIdentifier ident (some m)) "@" = false →
      normalizePluginIdentifier ident (some m) ≠ "" →
      m ≠ "" →
      (p ∈ findMatchingPlugins plugins ident (some m) ↔
        (p ∈ plugins ∧
         jsToLower p.name = jsToLower (normalizePluginIdentifier ident (some m)) ∧
         jsToLower p.marketplace = jsToLower m))) ∧
    (findMatchingPlugins [rowCase] "foo@bar" none = [] ∧
     findMatchingPlugins [rowCase] "foo" none = [rowCase] ∧
     findMatchingPlugins [rowCase] "foo" (some "BAR") = [rowCase]) := by
  refine ⟨?_, ?_, ?_, by decide, by decide, by decide⟩
  · intro plugins ident hint p h hp
    rw [findMatchingPlugins_composite plugins ident hint h] at hp
    exact eq_of_beq (List.mem_filter.1 hp).2
  · intro plugins ident p h hne
    have h1 : (normalizePluginIdentifier ident none == "") = false := by
      cases hx : (normalizePluginIdentifier ident none == "") with
      | true => exact absurd (eq_of_beq hx) hne
      | false => rfl
    simp only [findMatchingPlugins, h1, h, Bool.false_eq_true, if_false]
    simp [List.mem_filter]
  · intro plugins ident m p h hne hm
    have h1 : (normalizePluginIdentifier ident (some m) == "") = false := by
      cases hx : (normalizePluginIdentifier ident (some m) == "") with
      | true => exact absurd (eq_of_beq hx) hne
      | false => rfl
    have h2 : (m == "") = false := by
      cases hx : (m == "") with
      | true => exact absurd (eq_of_beq hx) hm
      | false => rfl
    simp only [findMatchingPlugins, h1, h2, h, Bool.false_eq_true, if_false]
    simp [List.mem_filter, and_assoc]
    tauto

/-- C10 witness: the exact-key rule applied to a concrete match, and a
case-mismatched bare name still matching case-insensitively, both without
a hint and with a case-mismatched marketplace hint. -/
theorem key_match_case_sensitivity_witness :
    rowB.key = normalizePluginIdentifier "alpha@m2" none ∧
    rowB ∈ findMatchingPlugins [rowA, rowB] "ALPHA" none ∧
    rowB ∈ findMatchingPlugins [rowA, rowB] "ALPHA" (some "M2") := by
  refine ⟨?_, ?_, ?_⟩
  · exact key_match_case_sensitivity.1 [rowA, rowB] "alpha@m2" none rowB (by decide) (by decide)
  · exact (key_match_case_sensitivity.2.1 [rowA, rowB] "ALPHA" rowB (by decide)
      (by decide)).mpr ⟨by decide, by decide⟩
  · exact (key_match_case_sensitivity.2.2.1 [rowA, rowB] "ALPHA" "M2" rowB (by decide)
      (by decide) (by decide)).mpr ⟨by decide, by decide, by decide⟩

end Bridge
